import Mathlib

/-!
Verification of the function-resolution and template-rendering engine of
`rlog_generator` (file `rlog_generator/utils.py`), as a shallow embedding.

Modelling conventions:
* Python values appearing in parsed YAML configurations are `PyVal`
  (string, integer, boolean, None, list).  Dictionaries and namespaces are
  association lists with first-match lookup, since Python dict keys and
  module attribute names are unique.
* The Faker instance is `Generator`; the module-level global `fake` is an
  `Option Generator`, `Option.none` meaning the global name is unbound
  (dereferencing it raises `NameError`).
* Python exceptions are the `Err` inductive; fallible code returns
  `Except Err _`.
* Provider functions (the opaque locale-aware value library) are total
  functions `Generator → List String → PyVal`; the core module namespace
  and each provider module namespace are association lists of them.
* Randomness is made explicit: `random.choice` receives an arbitrary
  natural number reduced modulo the sequence length (an arbitrary valid
  index), and `get_template_log` receives a per-field index source.
* `importlib.import_module` caching in `sys.modules` is modelled by an
  explicit cache threaded through `load_provider_modules`; the actual
  loading of a module file is the opaque parameter `importFn`.
* A template string is modelled already parsed into its literal,
  positional and named-placeholder parts; the parsing of the brace syntax
  is Python's `str.format` machinery, external to this code.
-/

namespace RlogGen

/-- A Python value as it appears in a parsed YAML configuration. -/
inductive PyVal where
  | str (s : String)
  | int (n : Int)
  | bool (b : Bool)
  | noneV
  | list (xs : List PyVal)

/-- Python exceptions raised by the code under verification. -/
inductive Err where
  | valueError (msg : String)
  | nameError
  | indexError
  | keyError (k : String)
deriving DecidableEq, Repr

/-- The Faker instance: `Faker(locale)` keeps the locale it was built from.
The library's value-generating behaviour is opaque and passed as
parameters where needed. -/
structure Generator where
  locale : PyVal

/-- A provider function: first parameter is the shared generator, the
remaining parameters are the caller-supplied string arguments. -/
abbrev ProviderFun := Generator → List String → PyVal

/-- A module namespace: attribute name to function, unique keys. -/
abbrev Nspace := List (String × ProviderFun)

/-- First-match association-list lookup (Python dict / `getattr`). -/
def alookup {α : Type} (l : List (String × α)) (key : String) : Option α :=
  match l with
  | [] => Option.none
  | (k, v) :: rest => if k = key then some v else alookup rest key

/-- Python `str.split()` with no argument: split on runs of whitespace,
discarding empty tokens.  Implemented over the character list. -/
def pySplitAux (cs : List Char) (acc : List Char) : List String :=
  match cs with
  | [] => if acc.isEmpty then [] else [String.mk acc.reverse]
  | c :: rest =>
    if c.isWhitespace then
      if acc.isEmpty then pySplitAux rest []
      else String.mk acc.reverse :: pySplitAux rest []
    else pySplitAux rest (c :: acc)

def pySplit (s : String) : List String := pySplitAux s.toList []

/-- Python truthiness of a `PyVal` (`if config['locale']:`). -/
def pyTruthy : PyVal → Bool
  | .str s => !(s == "")
  | .int n => !(n == 0)
  | .bool b => b
  | .noneV => false
  | .list xs => !xs.isEmpty

/-- `load_config` (utils.py lines 35-51), restricted to the engine-relevant
effect on the global `fake`.  The YAML file reading and parsing are the
external collaborator; the function receives the already-parsed mapping.
If the configuration has a `locale` key with a truthy value, the global
`fake` is rebound to `Faker(config['locale'])`; otherwise it is left as it
was.  Returns the new value of the global `fake`. -/
def load_config (config : List (String × PyVal)) (fake : Option Generator) :
    Option Generator :=
  match alookup config "locale" with
  | some v => if pyTruthy v then some (Generator.mk v) else fake
  | Option.none => fake

/-- The wrapper type returned by `get_function`: it receives the state of
the global `fake` at call time plus the caller's arguments. -/
abbrev Wrapper := Option Generator → List String → Except Err PyVal

/-- The body of `func_wrapper` (utils.py lines 223-224 and 229-230):
dereference the global `fake` (a `NameError` if it was never assigned) and
call the underlying function with it as implicit first argument. -/
def mkWrapper (f : ProviderFun) : Wrapper :=
  fun fake args =>
    match fake with
    | Option.none => .error .nameError
    | some g => .ok (f g args)

/-- The provider-registry scan of `get_function` (utils.py lines 227-231):
iterate modules in registry order, first module exposing the attribute
wins. -/
def findProvider (providers : List (String × Nspace)) (name : String) :
    Option ProviderFun :=
  match providers with
  | [] => Option.none
  | (_, ns) :: rest =>
    match alookup ns name with
    | some f => some f
    | Option.none => findProvider rest name

/-- `get_function` (utils.py lines 204-233).  Strips exactly
`len('func_') = 5` characters, searches the core module namespace first,
then the registered provider modules in registry order, and wraps the hit;
otherwise raises `ValueError` naming the stripped string (the local
`function_str` was reassigned to the stripped name on line 220). -/
def get_function (core : Nspace) (providers : List (String × Nspace))
    (function_str : String) : Except Err Wrapper :=
  match alookup core (function_str.drop 5) with
  | some f => .ok (mkWrapper f)
  | Option.none =>
    match findProvider providers (function_str.drop 5) with
    | some f => .ok (mkWrapper f)
    | Option.none =>
      .error (.valueError ("Function " ++ function_str.drop 5 ++
        " not found in any provider modules."))

/-- `exec_function_str` (utils.py lines 237-254): split on whitespace,
resolve the first token (`tokens[0]` raises `IndexError` when the token
list is empty), call the wrapper with no arguments or with the remaining
tokens. -/
def exec_function_str (core : Nspace) (providers : List (String × Nspace))
    (fake : Option Generator) (function_str : String) : Except Err PyVal :=
  match pySplit function_str with
  | [] => .error .indexError
  | t :: rest =>
    match get_function core providers t with
    | .error e => .error e
    | .ok func => if rest.isEmpty then func fake [] else func fake rest

/-- `get_random_value` (utils.py lines 257-274).  A string is executed as
a function specification; from a list, `random.choice` picks an arbitrary
valid index (modelled as `idx % xs.length`; on an empty sequence
`random.choice` raises `IndexError`); anything else raises `ValueError`. -/
def get_random_value (core : Nspace) (providers : List (String × Nspace))
    (fake : Option Generator) (idx : Nat) (field_value : PyVal) :
    Except Err PyVal :=
  match field_value with
  | .str s => exec_function_str core providers fake s
  | .list xs =>
    match xs.get? (idx % xs.length) with
    | some v => .ok v
    | Option.none => .error .indexError
  | _ => .error (.valueError "field value can be a string or a list")

/-- One parsed part of a format template: literal text, the positional
placeholder (filled by the render timestamp), or a named placeholder. -/
inductive TemplatePart where
  | lit (s : String)
  | pos
  | named (k : String)
deriving DecidableEq, Repr

/-- Python `str(v)` for the values we model (used when substituting into
the template). -/
def pyStr : PyVal → String
  | .str s => s
  | .int n => toString n
  | .bool b => if b then "True" else "False"
  | .noneV => "None"
  | .list _ => "[...]"

/-- Python `template.format(now, **values)` on a parsed template: literal
parts pass through, the positional slot takes the timestamp, a named
placeholder takes the matching value or raises `KeyError`; extra keys in
`values` are simply never consulted. -/
def pyFormat (template : List TemplatePart) (now : PyVal)
    (values : List (String × PyVal)) : Except Err String :=
  match template with
  | [] => .ok ""
  | p :: rest =>
    let head : Except Err String :=
      match p with
      | .lit s => .ok s
      | .pos => .ok (pyStr now)
      | .named k =>
        match alookup values k with
        | some v => .ok (pyStr v)
        | Option.none => .error (.keyError k)
    match head with
    | .error e => .error e
    | .ok h =>
      match pyFormat rest now values with
      | .error e => .error e
      | .ok t => .ok (h ++ t)

/-- The dict comprehension of `get_template_log` (utils.py line 288):
resolve every field independently; an exception from any field
propagates.  `ridx` supplies the random index `random.choice` would use
for each field. -/
def resolveFields (core : Nspace) (providers : List (String × Nspace))
    (fake : Option Generator) (ridx : String → Nat) :
    List (String × PyVal) → Except Err (List (String × PyVal))
  | [] => .ok []
  | (k, spec) :: rest =>
    match get_random_value core providers fake (ridx k) spec with
    | .error e => .error e
    | .ok v =>
      match resolveFields core providers fake ridx rest with
      | .error e => .error e
      | .ok vs => .ok ((k, v) :: vs)

/-- `get_template_log` (utils.py lines 277-290): resolve all fields, take
the current moment, substitute into the template. -/
def get_template_log (core : Nspace) (providers : List (String × Nspace))
    (fake : Option Generator) (ridx : String → Nat) (now : PyVal)
    (template : List TemplatePart) (fields : List (String × PyVal)) :
    Except Err String :=
  match resolveFields core providers fake ridx fields with
  | .error e => .error e
  | .ok values => pyFormat template now values

/-- `timestamp` (utils.py lines 194-201): dereferences the global `fake`
(`NameError` when unbound) and returns the rounded epoch value from the
opaque Faker primitive `unix_time`, passed here as a parameter. -/
def timestamp (unixTime : Generator → Int) (fake : Option Generator) :
    Except Err PyVal :=
  match fake with
  | Option.none => .error .nameError
  | some g => .ok (.int (unixTime g))

/-- String suffix test over the character lists (Python
`filename.endswith('.py')`). -/
def strEndsWith (s suffix : String) : Bool :=
  suffix.toList.isSuffixOf s.toList

/-- The filename filter of `load_provider_modules` (utils.py line 59). -/
def isProviderFile (filename : String) : Bool :=
  strEndsWith filename ".py" && !(filename == "__init__.py")

/-- `importlib.import_module`: `sys.modules` caching means a module is
actually loaded at most once per process; a second import of the same
name returns the cached module object. -/
def import_module (importFn : String → Nspace)
    (cache : List (String × Nspace)) (name : String) :
    List (String × Nspace) × Nspace :=
  match alookup cache name with
  | some m => (cache, m)
  | Option.none => (cache ++ [(name, importFn name)], importFn name)

/-- Python dict assignment `d[k] = v`: overwrite in place or append. -/
def dictInsert {α : Type} (d : List (String × α)) (key : String) (v : α) :
    List (String × α) :=
  match d with
  | [] => [(key, v)]
  | (k, v') :: rest =>
    if k = key then (key, v) :: rest else (k, v') :: dictInsert rest key v

/-- The directory loop of `load_provider_modules` (utils.py lines 58-62),
threading the import cache and accumulating the registry dict. -/
def loadProvidersAux (importFn : String → Nspace) :
    List String → List (String × Nspace) → List (String × Nspace) →
    List (String × Nspace) × List (String × Nspace)
  | [], cache, reg => (cache, reg)
  | f :: fs, cache, reg =>
    if isProviderFile f then
      let r := import_module importFn cache (f.dropRight 3)
      loadProvidersAux importFn fs r.1 (dictInsert reg (f.dropRight 3) r.2)
    else
      loadProvidersAux importFn fs cache reg

/-- `load_provider_modules` (utils.py lines 53-64): list the providers
directory, import every `.py` file except `__init__.py`, and build the
name-to-module registry.  The directory listing and the module loader are
parameters; the import cache is `sys.modules`. -/
def load_provider_modules (importFn : String → Nspace)
    (dirListing : List String) (cache : List (String × Nspace)) :
    List (String × Nspace) × List (String × Nspace) :=
  loadProvidersAux importFn dirListing cache []

end RlogGen

namespace RlogGen

/-- Shared helper: a function specification whose first token resolves in
the core namespace executes that function on the current generator and the
remaining tokens, returning its result unchanged. -/
theorem exec_core_aux (core : Nspace) (providers : List (String × Nspace))
    (g : Generator) (s t : String) (args : List String) (f : ProviderFun)
    (hsplit : pySplit s = t :: args)
    (hcore : alookup core (t.drop 5) = some f) :
    exec_function_str core providers (some g) s = .ok (f g args) := by
  simp only [exec_function_str, get_function, hsplit, hcore]
  cases args with
  | nil => simp [mkWrapper]
  | cons a as => simp [mkWrapper]

/-- C1: for a Function Specification string whose first token resolves (after
stripping the `func_` prefix) to a function `f` in the core namespace,
`exec_function_str` splits on whitespace, passes the remaining tokens as
positional string arguments with no coercion, invokes `f` with the shared
generator as implicit first argument, and returns `f`'s result unchanged. -/
theorem claim1_exec_function_core_invocation (core : Nspace)
    (providers : List (String × Nspace)) (g : Generator) (s t : String)
    (args : List String) (f : ProviderFun)
    (hsplit : pySplit s = t :: args)
    (hcore : alookup core (t.drop 5) = some f) :
    exec_function_str core providers (some g) s = .ok (f g args) :=
  exec_core_aux core providers g s t args f hsplit hcore

def joinArgs : ProviderFun :=
  fun g args => .str (pyStr g.locale ++ ":" ++ String.intercalate "," args)

def coreC1 : Nspace := [("upper", joinArgs)]

def genC1 : Generator := ⟨.str "en_US"⟩

/-- C1 witness at the concrete input `"func_upper a b"`. -/
theorem claim1_witness :
    pySplit "func_upper a b" = ["func_upper", "a", "b"] ∧
    alookup coreC1 ("func_upper".drop 5) = some joinArgs ∧
    exec_function_str coreC1 [] (some genC1) "func_upper a b" =
      .ok (joinArgs genC1 ["a", "b"]) := by
  refine ⟨by decide, by rfl, ?_⟩
  exact claim1_exec_function_core_invocation coreC1 [] genC1 "func_upper a b"
    "func_upper" ["a", "b"] joinArgs (by decide) (by rfl)

/-- C2: resolving a non-empty literal list field specification always
returns a member of the list, whatever index the randomness source
supplies. -/
theorem claim2_list_choice_mem (core : Nspace)
    (providers : List (String × Nspace)) (fake : Option Generator)
    (idx : Nat) (xs : List PyVal) (h : xs ≠ []) :
    ∃ v, get_random_value core providers fake idx (.list xs) = .ok v ∧
      v ∈ xs := by
  have hlen : 0 < xs.length := List.length_pos.mpr h
  have hlt : idx % xs.length < xs.length := Nat.mod_lt _ hlen
  refine ⟨xs[idx % xs.length], ?_, List.getElem_mem hlt⟩
  simp [get_random_value, List.getElem?_eq_getElem hlt]

def xsC2 : List PyVal := [.str "alice", .str "bob"]

/-- C2 witness at the concrete list `["alice", "bob"]` with index 1. -/
theorem claim2_witness :
    xsC2 ≠ [] ∧
    ∃ v, get_random_value [] [] Option.none 1 (.list xsC2) = .ok v ∧
      v ∈ xsC2 := by
  refine ⟨by simp [xsC2], ?_⟩
  exact claim2_list_choice_mem [] [] Option.none 1 xsC2 (by simp [xsC2])

/-- C6: a field specification value that is neither a string nor a list is
rejected immediately with the `ValueError` whose message is
`field value can be a string or a list`. -/
theorem claim6_invalid_field_spec (core : Nspace)
    (providers : List (String × Nspace)) (fake : Option Generator)
    (idx : Nat) (v : PyVal) (h1 : ∀ s, v ≠ .str s)
    (h2 : ∀ xs, v ≠ .list xs) :
    get_random_value core providers fake idx v =
      .error (.valueError "field value can be a string or a list") := by
  cases v with
  | str s => exact absurd rfl (h1 s)
  | list xs => exact absurd rfl (h2 xs)
  | int n => rfl
  | bool b => rfl
  | noneV => rfl

/-- C6 witness at the concrete non-string non-list value `7`. -/
theorem claim6_witness :
    (∀ s, PyVal.int 7 ≠ .str s) ∧ (∀ xs, PyVal.int 7 ≠ .list xs) ∧
    get_random_value [] [] Option.none 0 (.int 7) =
      .error (.valueError "field value can be a string or a list") := by
  refine ⟨?_, ?_, ?_⟩
  · intro s h
    cases h
  · intro xs h
    cases h
  · exact claim6_invalid_field_spec [] [] Option.none 0 (.int 7)
      (fun s h => by cases h) (fun xs h => by cases h)

/-- C9: an empty or whitespace-only string taken as a field specification
goes down the function-string branch, where indexing the first element of
the empty token list raises `IndexError` — not the `ValueError` that an
invalid (non-string, non-list) specification would raise. -/
theorem claim9_empty_spec_index_error (core : Nspace)
    (providers : List (String × Nspace)) (fake : Option Generator)
    (idx : Nat) (s : String) (h : pySplit s = []) :
    get_random_value core providers fake idx (.str s) =
      .error .indexError ∧
    Err.indexError ≠ Err.valueError "field value can be a string or a list" := by
  constructor
  · simp [get_random_value, exec_function_str, h]
  · decide

/-- C9 witness at the concrete whitespace-only specification `" "`. -/
theorem claim9_witness :
    pySplit " " = [] ∧
    get_random_value [] [] Option.none 0 (.str " ") = .error .indexError := by
  refine ⟨by decide, ?_⟩
  exact (claim9_empty_spec_index_error [] [] Option.none 0 " " (by decide)).1

end RlogGen

namespace RlogGen

/-- Skipping provider modules that do not expose the name leaves the scan
result unchanged. -/
theorem findProvider_skip_none (ps1 rest : List (String × Nspace))
    (name : String) (h : ∀ p ∈ ps1, alookup p.2 name = Option.none) :
    findProvider (ps1 ++ rest) name = findProvider rest name := by
  induction ps1 with
  | nil => rfl
  | cons p ps ih =>
    obtain ⟨m, ns⟩ := p
    have hp : alookup ns name = Option.none := h (m, ns) (by simp)
    simp only [List.cons_append, findProvider, hp]
    exact ih (fun q hq => h q (List.mem_cons_of_mem _ hq))

/-- If no registered provider module exposes the name, the scan finds
nothing. -/
theorem findProvider_none_of_all (ps : List (String × Nspace))
    (name : String) (h : ∀ p ∈ ps, alookup p.2 name = Option.none) :
    findProvider ps name = Option.none := by
  have := findProvider_skip_none ps [] name h
  simpa using this

/-- If some registered provider module exposes the name, the scan finds a
function. -/
theorem findProvider_isSome_of_mem (ps : List (String × Nspace))
    (name : String) (p : String × Nspace) (f : ProviderFun) (hp : p ∈ ps)
    (hf : alookup p.2 name = some f) :
    ∃ g, findProvider ps name = some g := by
  induction ps with
  | nil => cases hp
  | cons q qs ih =>
    obtain ⟨m, ns⟩ := q
    cases hq : alookup ns name with
    | some g => exact ⟨g, by simp [findProvider, hq]⟩
    | none =>
      rcases List.mem_cons.mp hp with h1 | h1
      · rw [h1] at hf
        rw [hf] at hq
        cases hq
      · obtain ⟨g, hg⟩ := ih h1
        exact ⟨g, by simp [findProvider, hq, hg]⟩

/-- C3: resolution order is fixed, first match wins, no ambiguity
detection: a core-namespace hit is returned regardless of what any
provider module defines; only when the core namespace lacks the stripped
name are provider modules scanned in registry order, the first module
exposing the name winning. -/
theorem claim3_resolution_order (core : Nspace)
    (ps : List (String × Nspace)) (tok : String) (f : ProviderFun) :
    (alookup core (tok.drop 5) = some f →
      get_function core ps tok = .ok (mkWrapper f)) ∧
    (∀ ps1 m ns ps2, alookup core (tok.drop 5) = Option.none →
      ps = ps1 ++ (m, ns) :: ps2 →
      (∀ p ∈ ps1, alookup p.2 (tok.drop 5) = Option.none) →
      alookup ns (tok.drop 5) = some f →
      get_function core ps tok = .ok (mkWrapper f)) := by
  constructor
  · intro hcore
    simp only [get_function, hcore]
  · intro ps1 m ns ps2 hcore hps hnone hns
    subst hps
    have hfp : findProvider (ps1 ++ (m, ns) :: ps2) (tok.drop 5) = some f := by
      rw [findProvider_skip_none ps1 _ _ hnone]
      simp [findProvider, hns]
    simp only [get_function, hcore, hfp]

def coreFunC3 : ProviderFun := fun _ _ => .str "core"

def provFunC3 : ProviderFun := fun _ _ => .str "provider"

def coreC3 : Nspace := [("dup", coreFunC3)]

def provC3 : List (String × Nspace) :=
  [("mod1", [("dup", provFunC3)]), ("mod2", [("only2", provFunC3)])]

/-- C3 witness: `dup` lives in both the core namespace and a provider
module and resolves to the core definition; `only2` lives only in the
second provider module and resolves there. -/
theorem claim3_witness :
    alookup coreC3 ("func_dup".drop 5) = some coreFunC3 ∧
    get_function coreC3 provC3 "func_dup" = .ok (mkWrapper coreFunC3) ∧
    alookup coreC3 ("func_only2".drop 5) = Option.none ∧
    get_function coreC3 provC3 "func_only2" = .ok (mkWrapper provFunC3) := by
  refine ⟨rfl, ?_, rfl, ?_⟩
  · exact (claim3_resolution_order coreC3 provC3 "func_dup" coreFunC3).1 rfl
  · exact (claim3_resolution_order coreC3 provC3 "func_only2" provFunC3).2
      [("mod1", [("dup", provFunC3)])] "mod2" [("only2", provFunC3)] []
      rfl rfl
      (by
        intro p hp
        simp only [List.mem_singleton] at hp
        rw [hp]
        rfl)
      rfl

/-- C4 counterexample: the claim says the `FunctionNotFound` error names
the original token as supplied, with its `func_` prefix.  It does not: on
line 220 the local `function_str` is reassigned to the stripped name
before the error is raised, so for the token `func_doesNotExist` the
message names `doesNotExist` and the original prefixed token occurs
nowhere in it. -/
theorem claim4_counterexample :
    get_function [] [] "func_doesNotExist" =
      .error (.valueError
        "Function doesNotExist not found in any provider modules.") ∧
    ¬ List.IsInfix "func_doesNotExist".toList
        "Function doesNotExist not found in any provider modules.".toList := by
  exact ⟨rfl, by decide⟩

/-- C4 (amended): when the stripped token resolves neither in the core
namespace nor in any registered provider module, `get_function` raises a
`ValueError` naming the prefix-stripped token; conversely it raises only
when the name is genuinely absent everywhere: a core hit or a hit in any
registered provider module yields a wrapper. -/
theorem claim4_amended_not_found (core : Nspace)
    (ps : List (String × Nspace)) (tok : String) :
    (alookup core (tok.drop 5) = Option.none →
      (∀ p ∈ ps, alookup p.2 (tok.drop 5) = Option.none) →
      get_function core ps tok = .error (.valueError
        ("Function " ++ tok.drop 5 ++
          " not found in any provider modules."))) ∧
    (∀ f, alookup core (tok.drop 5) = some f →
      ∃ w, get_function core ps tok = .ok w) ∧
    (∀ p f, p ∈ ps → alookup p.2 (tok.drop 5) = some f →
      ∃ w, get_function core ps tok = .ok w) := by
  refine ⟨?_, ?_, ?_⟩
  · intro hcore hall
    have hfp := findProvider_none_of_all ps _ hall
    simp only [get_function, hcore, hfp]
  · intro f hcore
    exact ⟨mkWrapper f, by simp only [get_function, hcore]⟩
  · intro p f hp hf
    cases hcore : alookup core (tok.drop 5) with
    | some g => exact ⟨mkWrapper g, by simp only [get_function, hcore]⟩
    | none =>
      obtain ⟨g, hg⟩ := findProvider_isSome_of_mem ps _ p f hp hf
      exact ⟨mkWrapper g, by simp only [get_function, hcore, hg]⟩

def provFunC4 : ProviderFun := fun _ _ => .noneV

def provC4 : List (String × Nspace) := [("modA", [("present", provFunC4)])]

/-- C4 witness: with one provider module defining `present`, the token
`func_gone` raises the stripped-name error and the token `func_present`
resolves. -/
theorem claim4_witness :
    alookup ([] : Nspace) ("func_gone".drop 5) = Option.none ∧
    get_function [] provC4 "func_gone" =
      .error (.valueError
        "Function gone not found in any provider modules.") ∧
    ∃ w, get_function [] provC4 "func_present" = .ok w := by
  refine ⟨rfl, ?_, ?_⟩
  · exact (claim4_amended_not_found [] provC4 "func_gone").1 rfl
      (by
        intro p hp
        simp only [provC4, List.mem_singleton] at hp
        rw [hp]
        rfl)
  · exact (claim4_amended_not_found [] provC4 "func_present").2.2
      ("modA", [("present", provFunC4)]) provFunC4
      (List.mem_singleton.mpr rfl) rfl

/-- C10: the global `fake` starts unbound and is assigned only by
`load_config` on a truthy `locale`; until then every wrapper returned by
`get_function` fails with `NameError` when invoked, as does the core
`timestamp` function, and a configuration without a truthy `locale` leaves
the global unbound. -/
theorem claim10_unset_generator_fails (core : Nspace)
    (ps : List (String × Nspace)) (tok : String)
    (unixTime : Generator → Int) (config : List (String × PyVal)) :
    (∀ w, get_function core ps tok = .ok w →
      ∀ args, w Option.none args = .error .nameError) ∧
    timestamp unixTime Option.none = .error .nameError ∧
    (alookup config "locale" = Option.none →
      load_config config Option.none = Option.none) ∧
    (∀ v, alookup config "locale" = some v → pyTruthy v = false →
      load_config config Option.none = Option.none) := by
  refine ⟨?_, rfl, ?_, ?_⟩
  · intro w hw args
    unfold get_function at hw
    cases hcore : alookup core (tok.drop 5) with
    | some f =>
      rw [hcore] at hw
      cases hw
      rfl
    | none =>
      rw [hcore] at hw
      cases hfp : findProvider ps (tok.drop 5) with
      | some f =>
        rw [hfp] at hw
        cases hw
        rfl
      | none =>
        rw [hfp] at hw
        cases hw
  · intro h
    simp [load_config, h]
  · intro v hv htr
    simp [load_config, hv, htr]

def tickFun : ProviderFun := fun _ _ => PyVal.int 1

def coreC10 : Nspace := [("tick", tickFun)]

/-- C10 witness: a resolved wrapper and `timestamp`, invoked while the
global generator is unbound, both fail with `NameError`. -/
theorem claim10_witness :
    get_function coreC10 [] "func_tick" = .ok (mkWrapper tickFun) ∧
    mkWrapper tickFun Option.none [] = .error .nameError ∧
    timestamp (fun _ => 0) Option.none = .error .nameError := by
  refine ⟨rfl, ?_, ?_⟩
  · exact (claim10_unset_generator_fails coreC10 [] "func_tick"
      (fun _ => 0) []).1 (mkWrapper tickFun) rfl []
  · exact (claim10_unset_generator_fails coreC10 [] "func_tick"
      (fun _ => 0) []).2.1

end RlogGen

namespace RlogGen

/-- If every named placeholder of the template is bound in the value
mapping, formatting succeeds; keys of the mapping that the template never
mentions are simply not consulted. -/
theorem pyFormat_ok_of_bound (now : PyVal) (vals : List (String × PyVal)) :
    ∀ template : List TemplatePart,
    (∀ k, TemplatePart.named k ∈ template → (alookup vals k).isSome) →
    ∃ s, pyFormat template now vals = .ok s := by
  intro template
  induction template with
  | nil => intro _; exact ⟨"", rfl⟩
  | cons p rest ih =>
    intro h
    obtain ⟨t, ht⟩ := ih (fun k hk => h k (List.mem_cons_of_mem _ hk))
    cases p with
    | lit s => exact ⟨s ++ t, by simp [pyFormat, ht]⟩
    | pos => exact ⟨pyStr now ++ t, by simp [pyFormat, ht]⟩
    | named k =>
      have hk : (alookup vals k).isSome := h k (List.mem_cons_self _ _)
      obtain ⟨v, hv⟩ := Option.isSome_iff_exists.mp hk
      exact ⟨pyStr v ++ t, by simp [pyFormat, hv, ht]⟩

/-- If some named placeholder of the template is unbound in the value
mapping, formatting raises `KeyError` for such a placeholder. -/
theorem pyFormat_missing_key (now : PyVal) (vals : List (String × PyVal)) :
    ∀ template : List TemplatePart,
    (∃ k, TemplatePart.named k ∈ template ∧ alookup vals k = Option.none) →
    ∃ k', TemplatePart.named k' ∈ template ∧ alookup vals k' = Option.none ∧
      pyFormat template now vals = .error (.keyError k') := by
  intro template
  induction template with
  | nil =>
    rintro ⟨k, hk, _⟩
    cases hk
  | cons p rest ih =>
    rintro ⟨k, hk, hnone⟩
    cases p with
    | lit s =>
      have hk' : TemplatePart.named k ∈ rest := by
        rcases List.mem_cons.mp hk with h1 | h1
        · cases h1
        · exact h1
      obtain ⟨k', hmem, hn, herr⟩ := ih ⟨k, hk', hnone⟩
      exact ⟨k', List.mem_cons_of_mem _ hmem, hn, by simp [pyFormat, herr]⟩
    | pos =>
      have hk' : TemplatePart.named k ∈ rest := by
        rcases List.mem_cons.mp hk with h1 | h1
        · cases h1
        · exact h1
      obtain ⟨k', hmem, hn, herr⟩ := ih ⟨k, hk', hnone⟩
      exact ⟨k', List.mem_cons_of_mem _ hmem, hn, by simp [pyFormat, herr]⟩
    | named k0 =>
      cases hv : alookup vals k0 with
      | none => exact ⟨k0, List.mem_cons_self _ _, hv, by simp [pyFormat, hv]⟩
      | some v =>
        have hk' : TemplatePart.named k ∈ rest := by
          rcases List.mem_cons.mp hk with h1 | h1
          · injection h1 with h2
            subst h2
            rw [hv] at hnone
            cases hnone
          · exact h1
        obtain ⟨k', hmem, hn, herr⟩ := ih ⟨k, hk', hnone⟩
        exact ⟨k', List.mem_cons_of_mem _ hmem, hn,
          by simp [pyFormat, hv, herr]⟩

/-- C5: once the fields resolve, `get_template_log` succeeds whenever every
named placeholder of the template is bound in the resolved mapping (so a
resolved field that the template never mentions causes no error), and it
fails with `KeyError` for an unbound placeholder whenever the template
mentions a name absent from the resolved mapping. -/
theorem claim5_template_render (core : Nspace)
    (providers : List (String × Nspace)) (fake : Option Generator)
    (ridx : String → Nat) (now : PyVal) (template : List TemplatePart)
    (fields vals : List (String × PyVal))
    (hres : resolveFields core providers fake ridx fields = .ok vals) :
    ((∀ k, TemplatePart.named k ∈ template → (alookup vals k).isSome) →
      ∃ s, get_template_log core providers fake ridx now template fields =
        .ok s) ∧
    ((∃ k, TemplatePart.named k ∈ template ∧ alookup vals k = Option.none) →
      ∃ k', TemplatePart.named k' ∈ template ∧
        alookup vals k' = Option.none ∧
        get_template_log core providers fake ridx now template fields =
          .error (.keyError k')) := by
  constructor
  · intro h
    obtain ⟨s, hs⟩ := pyFormat_ok_of_bound now vals template h
    exact ⟨s, by simp [get_template_log, hres, hs]⟩
  · intro h
    obtain ⟨k', h1, h2, h3⟩ := pyFormat_missing_key now vals template h
    exact ⟨k', h1, h2, by simp [get_template_log, hres, h3]⟩

def fieldsC5 : List (String × PyVal) :=
  [("user", .list [.str "alice"]), ("extra", .list [.str "x"])]

def valsC5 : List (String × PyVal) :=
  [("user", .str "alice"), ("extra", .str "x")]

def tmplC5 : List TemplatePart := [.pos, .lit " - ", .named "user"]

def tmplC5bad : List TemplatePart := [.named "missing"]

/-- C5 witness: with fields `user` and `extra`, a template mentioning only
`user` renders (the resolved `extra` is ignored) while a template
mentioning `missing` fails with `KeyError`. -/
theorem claim5_witness :
    resolveFields [] [] Option.none (fun _ => 0) fieldsC5 = .ok valsC5 ∧
    (∃ s, get_template_log [] [] Option.none (fun _ => 0) (.str "now")
      tmplC5 fieldsC5 = .ok s) ∧
    (∃ k', TemplatePart.named k' ∈ tmplC5bad ∧
      alookup valsC5 k' = Option.none ∧
      get_template_log [] [] Option.none (fun _ => 0) (.str "now")
        tmplC5bad fieldsC5 = .error (.keyError k')) := by
  refine ⟨rfl, ?_, ?_⟩
  · exact (claim5_template_render [] [] Option.none (fun _ => 0) (.str "now")
      tmplC5 fieldsC5 valsC5 rfl).1
      (by
        intro k hk
        simp only [tmplC5, List.mem_cons, List.not_mem_nil, or_false] at hk
        rcases hk with h | h | h
        · cases h
        · cases h
        · injection h with h2
          subst h2
          rfl)
  · exact (claim5_template_render [] [] Option.none (fun _ => 0) (.str "now")
      tmplC5bad fieldsC5 valsC5 rfl).2
      ⟨"missing", List.mem_singleton.mpr rfl, rfl⟩

/-- C7: loading a configuration rebinds the shared generator exactly when
the configuration has a `locale` key with a present, non-empty value;
successive loads are last-write-wins; and function calls resolved
afterwards receive the currently configured generator as implicit first
argument. -/
theorem claim7_locale_reassignment (config : List (String × PyVal))
    (fake : Option Generator) :
    (∀ s : String, alookup config "locale" = some (.str s) → s ≠ "" →
      load_config config fake = some (Generator.mk (.str s))) ∧
    (∀ s : String, alookup config "locale" = some (.str s) → s = "" →
      load_config config fake = fake) ∧
    (alookup config "locale" = Option.none →
      load_config config fake = fake) ∧
    (∀ config2 v2 fake2, alookup config2 "locale" = some v2 →
      pyTruthy v2 = true →
      load_config config2 (load_config config fake) =
        load_config config2 fake2) ∧
    (∀ core ps s t args f g, pySplit s = t :: args →
      alookup core (t.drop 5) = some f →
      load_config config fake = some g →
      exec_function_str core ps (load_config config fake) s =
        .ok (f g args)) := by
  refine ⟨?_, ?_, ?_, ?_, ?_⟩
  · intro s hv hne
    have ht : pyTruthy (.str s) = true := by
      simp [pyTruthy, hne]
    simp [load_config, hv, ht]
  · intro s hv he
    subst he
    simp [load_config, pyTruthy, hv]
  · intro h
    simp [load_config, h]
  · intro config2 v2 fake2 hv htr
    simp [load_config, hv, htr]
  · intro core ps s t args f g hsplit hcore hget
    rw [hget]
    exact exec_core_aux core ps g s t args f hsplit hcore

def echoLocale : ProviderFun := fun g _ => g.locale

def coreC7 : Nspace := [("echo", echoLocale)]

def cfgIt : List (String × PyVal) := [("locale", .str "it_IT")]

def cfgEmptyLoc : List (String × PyVal) := [("locale", .str "")]

def cfgNoLoc : List (String × PyVal) := [("other", .int 1)]

/-- C7 witness: a non-empty locale rebinds, an empty or absent one leaves
the generator alone, reloading wins over any earlier state, and a resolved
call afterwards receives the just-configured generator. -/
theorem claim7_witness :
    load_config cfgIt Option.none = some (Generator.mk (.str "it_IT")) ∧
    load_config cfgEmptyLoc Option.none = Option.none ∧
    load_config cfgNoLoc Option.none = Option.none ∧
    load_config cfgIt (load_config cfgEmptyLoc Option.none) =
      load_config cfgIt (some (Generator.mk (.str "fr_FR"))) ∧
    exec_function_str coreC7 [] (load_config cfgIt Option.none) "func_echo" =
      .ok (echoLocale (Generator.mk (.str "it_IT")) []) := by
  refine ⟨?_, ?_, ?_, ?_, ?_⟩
  · exact (claim7_locale_reassignment cfgIt Option.none).1 "it_IT" rfl
      (by decide)
  · exact (claim7_locale_reassignment cfgEmptyLoc Option.none).2.1 "" rfl rfl
  · exact (claim7_locale_reassignment cfgNoLoc Option.none).2.2.1 rfl
  · exact (claim7_locale_reassignment cfgEmptyLoc Option.none).2.2.2.1
      cfgIt (.str "it_IT") (some (Generator.mk (.str "fr_FR"))) rfl rfl
  · exact (claim7_locale_reassignment cfgIt Option.none).2.2.2.2
      coreC7 [] "func_echo" "func_echo" [] echoLocale
      (Generator.mk (.str "it_IT")) (by decide) rfl rfl

end RlogGen

namespace RlogGen

/-- A key bound on the left of an append stays bound to the same value. -/
theorem alookup_append_left {α : Type} (c c' : List (String × α))
    (k : String) (v : α) (h : alookup c k = some v) :
    alookup (c ++ c') k = some v := by
  induction c with
  | nil => cases h
  | cons p rest ih =>
    obtain ⟨k', v'⟩ := p
    simp only [List.cons_append, alookup] at h ⊢
    by_cases hk : k' = k
    · rw [if_pos hk] at h ⊢
      exact h
    · rw [if_neg hk] at h ⊢
      exact ih h

/-- Appending a binding for a previously absent key makes it found. -/
theorem alookup_append_fresh {α : Type} (c : List (String × α))
    (k : String) (v : α) (h : alookup c k = Option.none) :
    alookup (c ++ [(k, v)]) k = some v := by
  induction c with
  | nil => simp [alookup]
  | cons p rest ih =>
    obtain ⟨k', v'⟩ := p
    simp only [List.cons_append, alookup] at h ⊢
    by_cases hk : k' = k
    · rw [if_pos hk] at h
      cases h
    · rw [if_neg hk] at h ⊢
      exact ih h

/-- After an import, the cache maps the module name to the returned
module. -/
theorem import_module_lookup (importFn : String → Nspace)
    (cache : List (String × Nspace)) (name : String) :
    alookup (import_module importFn cache name).1 name =
      some (import_module importFn cache name).2 := by
  unfold import_module
  cases h : alookup cache name with
  | some m =>
    simp only []
    exact h
  | none =>
    simp only []
    exact alookup_append_fresh cache name _ h

/-- Importing never changes an existing cache binding. -/
theorem import_module_mono (importFn : String → Nspace)
    (cache : List (String × Nspace)) (name k : String) (v : Nspace)
    (h : alookup cache k = some v) :
    alookup (import_module importFn cache name).1 k = some v := by
  unfold import_module
  cases hc : alookup cache name with
  | some m => exact h
  | none =>
    simp only []
    exact alookup_append_left cache _ k v h

/-- Importing a name already in the cache is the identity on the cache and
returns the cached module. -/
theorem import_module_of_hit (importFn : String → Nspace)
    (cache : List (String × Nspace)) (name : String) (m : Nspace)
    (h : alookup cache name = some m) :
    import_module importFn cache name = (cache, m) := by
  unfold import_module
  rw [h]

/-- Unfolding step of the directory loop on a provider file. -/
theorem loadProvidersAux_step_file (importFn : String → Nspace)
    (f : String) (fs : List String) (cache reg : List (String × Nspace))
    (hf : isProviderFile f = true) :
    loadProvidersAux importFn (f :: fs) cache reg =
      loadProvidersAux importFn fs
        (import_module importFn cache (f.dropRight 3)).1
        (dictInsert reg (f.dropRight 3)
          (import_module importFn cache (f.dropRight 3)).2) := by
  simp only [loadProvidersAux, hf, if_true]

/-- Unfolding step of the directory loop on a non-provider file. -/
theorem loadProvidersAux_step_skip (importFn : String → Nspace)
    (f : String) (fs : List String) (cache reg : List (String × Nspace))
    (hf : isProviderFile f = false) :
    loadProvidersAux importFn (f :: fs) cache reg =
      loadProvidersAux importFn fs cache reg := by
  simp only [loadProvidersAux, hf, Bool.false_eq_true, if_false]

/-- The directory loop never changes an existing cache binding. -/
theorem loadProvidersAux_mono (importFn : String → Nspace) :
    ∀ (fs : List String) (cache reg : List (String × Nspace))
      (k : String) (v : Nspace), alookup cache k = some v →
    alookup (loadProvidersAux importFn fs cache reg).1 k = some v := by
  intro fs
  induction fs with
  | nil =>
    intro cache reg k v h
    exact h
  | cons f fs ih =>
    intro cache reg k v h
    cases hf : isProviderFile f with
    | true =>
      rw [loadProvidersAux_step_file importFn f fs cache reg hf]
      exact ih _ _ k v
        (import_module_mono importFn cache (f.dropRight 3) k v h)
    | false =>
      rw [loadProvidersAux_step_skip importFn f fs cache reg hf]
      exact ih cache reg k v h

/-- Re-running the directory loop from the cache state it produced is a
fixed point: every import now hits the cache, so the loop reproduces the
same cache and the same registry. -/
theorem loadProvidersAux_fixed (importFn : String → Nspace) :
    ∀ (fs : List String) (cache reg : List (String × Nspace)),
    loadProvidersAux importFn fs
        (loadProvidersAux importFn fs cache reg).1 reg =
      loadProvidersAux importFn fs cache reg := by
  intro fs
  induction fs with
  | nil =>
    intro cache reg
    rfl
  | cons f fs ih =>
    intro cache reg
    cases hf : isProviderFile f with
    | true =>
      rw [loadProvidersAux_step_file importFn f fs cache reg hf]
      rw [loadProvidersAux_step_file importFn f fs _ reg hf]
      rw [import_module_of_hit importFn _ _ _
        (loadProvidersAux_mono importFn fs _ _ _ _
          (import_module_lookup importFn cache (f.dropRight 3)))]
      exact ih _ _
    | false =>
      rw [loadProvidersAux_step_skip importFn f fs cache reg hf]
      rw [loadProvidersAux_step_skip importFn f fs _ reg hf]
      exact ih cache reg

/-- C8: `load_provider_modules` is idempotent on the registry: invoking it
a second time (with the import cache `sys.modules` left by the first run
and the same directory listing) is a fixed point — the same module names
mapped to the same modules, with no duplicated or corrupted entries, and
the import cache itself unchanged. -/
theorem claim8_load_providers_idempotent (importFn : String → Nspace)
    (dirListing : List String) (cache : List (String × Nspace)) :
    load_provider_modules importFn dirListing
        (load_provider_modules importFn dirListing cache).1 =
      load_provider_modules importFn dirListing cache :=
  loadProvidersAux_fixed importFn dirListing cache []

end RlogGen
